import Mathlib

/-!
Shallow embedding of `src/app.py`, a single-file Streamlit dashboard
("Planet-Level Global Digital Twin").  Python strings are modelled as lists
of Unicode code points (`Str`), upstream JSON payloads as structures whose
possibly-missing keys are `Option` fields, each fetcher as a function from a
network environment to an `Except`-valued result (an `Except.error` models an
uncaught Python exception propagating out of the call), and the top-level
script as a sequence of guarded render blocks threading an explicit state
(fetcher-call trace, rendered widgets, digest sentences) that stops at the
first uncaught exception, exactly as the Streamlit script would.
-/

deriving instance DecidableEq for Except

namespace PlanetTwin

/-- Python `str`: a sequence of Unicode code points. -/
abbrev Str := List Char

/-- Code points of a Lean string literal, used to write Python string values. -/
def str (s : String) : Str := s.data

/-- Uncaught Python exceptions that the script can raise. -/
inductive PyErr where
  /-- a `requests` transport exception (network, DNS, timeout, bad JSON). -/
  | netErr : PyErr
  /-- `KeyError` from a missing dict key. -/
  | keyErr : Str → PyErr
  /-- `IndexError` from indexing an empty list. -/
  | indexErr : PyErr
deriving DecidableEq, Repr

/-- One geocoding match: `app.py` reads `latitude` and `longitude`. -/
structure GeoResult where
  latitude : Int
  longitude : Int
deriving DecidableEq, Repr

/-- Geocoding response: the `results` key may be absent (`none`). -/
structure GeoResp where
  results : Option (List GeoResult)
deriving DecidableEq, Repr

/-- Forecast payload; `app.py` returns it unread, so it stays opaque. -/
structure WeatherJson where
  raw : Nat
deriving DecidableEq, Repr

/-- One USGS quake feature, with the fields the earthquake block reads
(`properties.place/mag/time`, `geometry.coordinates[1]/[0]`). -/
structure EqFeature where
  place : Str
  mag : Int
  time : Int
  lon : Int
  lat : Int
deriving DecidableEq, Repr

/-- USGS feed response: the earthquake block iterates `features`. -/
structure EqResp where
  features : List EqFeature
deriving DecidableEq, Repr

/-- disease.sh response: the block reads `covid["cases"]` and
`covid["deaths"]`, either of which may be absent from the payload. -/
structure CovidResp where
  cases : Option Nat
  deaths : Option Nat
deriving DecidableEq, Repr

/-- One OpenAQ measurement `{parameter, value}`. -/
structure Measurement where
  parameter : Str
  value : Int
deriving DecidableEq, Repr

/-- One OpenAQ station result, holding its `measurements` list. -/
structure Station where
  measurements : List Measurement
deriving DecidableEq, Repr

/-- OpenAQ response: the `results` key may be absent (`none`). -/
structure AQResp where
  results : Option (List Station)
deriving DecidableEq, Repr

/-- One GDELT article; the news block reads `title`. -/
structure Article where
  title : Str
deriving DecidableEq, Repr

/-- GDELT response: the `articles` key may be absent (`none`). -/
structure NewsResp where
  articles : Option (List Article)
deriving DecidableEq, Repr

/-- ReliefWeb payload; never rendered, so it stays opaque. -/
structure DisResp where
  raw : Nat
deriving DecidableEq, Repr

/-- The network: the outcome of each HTTP GET the script can issue.
`Except.error ()` is a transport failure (`requests.get` raises or the body
is not JSON); `Except.ok` carries the parsed payload.  The geocoding and
air-quality requests are parameterized by the city in the URL, the forecast
request by the coordinates interpolated into the URL. -/
structure Env where
  geo : Str → Except Unit GeoResp
  forecast : Int → Int → Except Unit WeatherJson
  quakes : Except Unit EqResp
  covid : Except Unit CovidResp
  airQuality : Str → Except Unit AQResp
  disasters : Except Unit DisResp
  news : Except Unit NewsResp

/-- `get_weather(city)`: geocode, then fetch the hourly forecast.
`if "results" not in g: return None` is the `.ok none` branch;
`g["results"][0]` on a present-but-empty list raises `IndexError`. -/
def get_weather (env : Env) (city : Str) : Except PyErr (Option WeatherJson) :=
  match env.geo city with
  | .error _ => .error .netErr
  | .ok g =>
    match g.results with
    | none => .ok none
    | some [] => .error .indexErr
    | some (r :: _) =>
      match env.forecast r.latitude r.longitude with
      | .error _ => .error .netErr
      | .ok w => .ok (some w)

/-- `get_earthquakes()`: `requests.get(url).json()`, no error handling. -/
def get_earthquakes (env : Env) : Except PyErr EqResp :=
  match env.quakes with
  | .error _ => .error .netErr
  | .ok r => .ok r

/-- `get_covid()`: `requests.get(url).json()`, no error handling. -/
def get_covid (env : Env) : Except PyErr CovidResp :=
  match env.covid with
  | .error _ => .error .netErr
  | .ok r => .ok r

/-- `get_air_quality(city)`: `requests.get(url).json()`, no error handling. -/
def get_air_quality (env : Env) (city : Str) : Except PyErr AQResp :=
  match env.airQuality city with
  | .error _ => .error .netErr
  | .ok r => .ok r

/-- `get_disasters()`: `requests.get(url).json()`, no error handling. -/
def get_disasters (env : Env) : Except PyErr DisResp :=
  match env.disasters with
  | .error _ => .error .netErr
  | .ok r => .ok r

/-- `get_news()`: `requests.get(url).json()`, no error handling. -/
def get_news (env : Env) : Except PyErr NewsResp :=
  match env.news with
  | .error _ => .error .netErr
  | .ok r => .ok r

/-- Insert `,` after every third character of a least-significant-first digit
list: the grouping step of Python's `{n:,}` format. -/
def group3 : List Char → List Char
  | a :: b :: c :: d :: rest => a :: b :: c :: ',' :: group3 (d :: rest)
  | l => l
termination_by l => l.length

/-- Python `f"{n:,}"`: decimal digits with thousands separators. -/
def commaFmt (n : Nat) : Str :=
  (group3 (Nat.toDigits 10 n).reverse).reverse

/-- Python `str(list_of_strings)`: `['a', 'b']` (single-quoted, comma-space
separated, in square brackets). -/
def pyStrList (l : List Str) : Str :=
  let q := Char.ofNat 39
  str "[" ++ ((l.map (fun s => q :: s ++ [q])).intersperse (str ", ")).flatten
    ++ str "]"

/-- One displayed Streamlit element produced by the render section. -/
inductive Widget where
  /-- `st.subheader(...)`. -/
  | subheader : Str → Widget
  /-- `st.pydeck_chart` scatter over the quake dataframe rows. -/
  | quakeMap : List EqFeature → Widget
  /-- `st.metric(label, value)`. -/
  | metric : Str → Nat → Widget
  /-- `st.bar_chart` over the station's measurements. -/
  | barChart : List Measurement → Widget
  /-- `st.altair_chart` arc over the sampled news titles. -/
  | pieChart : List Str → Widget
deriving DecidableEq, Repr

/-- The six fetch functions of `app.py`, as call-trace identifiers. -/
inductive FetcherId where
  | weather | earthquakes | covid | airQuality | disasters | news
deriving DecidableEq, Repr

/-- The sidebar layer name whose render block would call a given fetcher. -/
def layerName : FetcherId → Str
  | .weather => str "Weather"
  | .earthquakes => str "Earthquakes"
  | .covid => str "COVID-19"
  | .airQuality => str "Air Quality"
  | .disasters => str "Disasters"
  | .news => str "News"

/-- Script state threaded through the render section: the fetch calls made so
far, the widgets displayed so far, and the `graphs` digest list. -/
structure St where
  calls : List FetcherId
  widgets : List Widget
  graphs : List Str
deriving DecidableEq, Repr

/-- State at the top of the render section: `graphs = []`. -/
def St.init : St := ⟨[], [], []⟩

/-- Run the next block only when no exception has been raised so far: an
uncaught Python exception aborts the rest of the script. -/
def andThen (r : St × Option PyErr) (f : St → St × Option PyErr) :
    St × Option PyErr :=
  match r with
  | (s, none) => f s
  | (s, some e) => (s, some e)

/-- `if "Earthquakes" in show_layers:` block — fetch, map widget, digest. -/
def quakeBlock (env : Env) (layers : List Str) (s : St) : St × Option PyErr :=
  if str "Earthquakes" ∈ layers then
    let s := { s with calls := s.calls ++ [FetcherId.earthquakes] }
    match get_earthquakes env with
    | .error e => (s, some e)
    | .ok eq =>
      ({ s with
          widgets := s.widgets
            ++ [Widget.subheader (str "🌋 Earthquakes (Past 24 Hours)"),
                Widget.quakeMap eq.features],
          graphs := s.graphs
            ++ [str "Earthquake activity shows seismic hotspots."] }, none)
  else (s, none)

/-- `if "COVID-19" in show_layers:` block — fetch, two metrics, digest.
`covid["cases"]` / `covid["deaths"]` raise `KeyError` when absent. -/
def covidBlock (env : Env) (layers : List Str) (s : St) : St × Option PyErr :=
  if str "COVID-19" ∈ layers then
    let s := { s with calls := s.calls ++ [FetcherId.covid] }
    match get_covid env with
    | .error e => (s, some e)
    | .ok covid =>
      let s := { s with
        widgets := s.widgets
          ++ [Widget.subheader (str "🦠 Global COVID-19 Snapshot")] }
      match covid.cases with
      | none => (s, some (.keyErr (str "cases")))
      | some cs =>
        let s := { s with
          widgets := s.widgets ++ [Widget.metric (str "Cases") cs] }
        match covid.deaths with
        | none => (s, some (.keyErr (str "deaths")))
        | some ds =>
          ({ s with
              widgets := s.widgets ++ [Widget.metric (str "Deaths") ds],
              graphs := s.graphs
                ++ [str "Global COVID-19 cases " ++ commaFmt cs
                    ++ str ", deaths " ++ commaFmt ds ++ str "."] }, none)
  else (s, none)

/-- `if "Air Quality" in show_layers:` block.  The inner guard
`if "results" in aq and len(aq["results"]) > 0:` silently skips the widget
and the digest when it is false. -/
def aqBlock (env : Env) (city : Str) (layers : List Str) (s : St) :
    St × Option PyErr :=
  if str "Air Quality" ∈ layers then
    let s := { s with calls := s.calls ++ [FetcherId.airQuality] }
    match get_air_quality env city with
    | .error e => (s, some e)
    | .ok aq =>
      match aq.results with
      | some (st0 :: _) =>
        ({ s with
            widgets := s.widgets
              ++ [Widget.subheader (str "🌫️ Air Quality in " ++ city),
                  Widget.barChart st0.measurements],
            graphs := s.graphs
              ++ [str "Air Quality in " ++ city
                  ++ str " shows levels of pollutants: "
                  ++ pyStrList (st0.measurements.map (·.parameter))
                  ++ str "."] }, none)
      | _ => (s, none)
  else (s, none)

/-- `if "News" in show_layers:` block.  The inner guard
`if "articles" in news:` checks key presence only; the list comprehension
samples the first 10 titles. -/
def newsBlock (env : Env) (layers : List Str) (s : St) : St × Option PyErr :=
  if str "News" ∈ layers then
    let s := { s with calls := s.calls ++ [FetcherId.news] }
    match get_news env with
    | .error e => (s, some e)
    | .ok news =>
      match news.articles with
      | some arts =>
        ({ s with
            widgets := s.widgets
              ++ [Widget.subheader (str "📰 Trending News Topics (Sample)"),
                  Widget.pieChart ((arts.take 10).map (·.title))],
            graphs := s.graphs
              ++ [str "News headlines show climate and geopolitical issues trending."] },
          none)
      | none => (s, none)
  else (s, none)

/-- `" ".join(graphs)`. -/
def joinSpace (l : List Str) : Str :=
  (l.intersperse (str " ")).flatten

/-- `summary_input = " ".join(graphs) if graphs else "No data selected."`
(an empty Python list is falsy). -/
def aggregator (graphs : List Str) : Str :=
  if graphs = [] then str "No data selected." else joinSpace graphs

/-! The summarizer facade.  `summarizer = pipeline("summarization", ...)` is
a module-level object; its observable behavior
`summarizer(t)[0]["summary_text"]` is modelled as an abstract function
`Str → Str` passed to each agent.  Each agent body is
`"<Label>: " + summarizer(text[:1024])...`. -/

/-- `langchain_summary(text)`. -/
def langchain_summary (summarizer : Str → Str) (text : Str) : Str :=
  str "LangChain Agent: " ++ summarizer (text.take 1024)

/-- `llamaindex_summary(text)`. -/
def llamaindex_summary (summarizer : Str → Str) (text : Str) : Str :=
  str "LlamaIndex Agent: " ++ summarizer (text.take 1024)

/-- `haystack_summary(text)`. -/
def haystack_summary (summarizer : Str → Str) (text : Str) : Str :=
  str "Haystack Agent: " ++ summarizer (text.take 1024)

/-- `hf_summary(text)`. -/
def hf_summary (summarizer : Str → Str) (text : Str) : Str :=
  str "HuggingFace Agent: " ++ summarizer (text.take 1024)

/-- `autogen_summary(text)`. -/
def autogen_summary (summarizer : Str → Str) (text : Str) : Str :=
  str "AutoGen Agent: " ++ summarizer (text.take 1024)

/-- `rasa_summary(text)`. -/
def rasa_summary (summarizer : Str → Str) (text : Str) : Str :=
  str "Rasa Agent: " ++ summarizer (text.take 1024)

/-- The six label prefixes, in the order of the `agents` list. -/
def agentLabels : List Str :=
  [str "LangChain Agent: ", str "LlamaIndex Agent: ", str "Haystack Agent: ",
   str "HuggingFace Agent: ", str "AutoGen Agent: ", str "Rasa Agent: "]

/-! Call-trace variants: the same six bodies, with the single summarization
call made observable.  Each returns its panel text together with the list of
inputs it passed to the pipeline (one call each). -/

/-- `langchain_summary` with its pipeline call logged. -/
def langchain_summaryT (summarizer : Str → Str) (text : Str) :
    Str × List Str :=
  let t := text.take 1024
  (str "LangChain Agent: " ++ summarizer t, [t])

/-- `llamaindex_summary` with its pipeline call logged. -/
def llamaindex_summaryT (summarizer : Str → Str) (text : Str) :
    Str × List Str :=
  let t := text.take 1024
  (str "LlamaIndex Agent: " ++ summarizer t, [t])

/-- `haystack_summary` with its pipeline call logged. -/
def haystack_summaryT (summarizer : Str → Str) (text : Str) :
    Str × List Str :=
  let t := text.take 1024
  (str "Haystack Agent: " ++ summarizer t, [t])

/-- `hf_summary` with its pipeline call logged. -/
def hf_summaryT (summarizer : Str → Str) (text : Str) : Str × List Str :=
  let t := text.take 1024
  (str "HuggingFace Agent: " ++ summarizer t, [t])

/-- `autogen_summary` with its pipeline call logged. -/
def autogen_summaryT (summarizer : Str → Str) (text : Str) : Str × List Str :=
  let t := text.take 1024
  (str "AutoGen Agent: " ++ summarizer t, [t])

/-- `rasa_summary` with its pipeline call logged. -/
def rasa_summaryT (summarizer : Str → Str) (text : Str) : Str × List Str :=
  let t := text.take 1024
  (str "Rasa Agent: " ++ summarizer t, [t])

/-- The `agents` list, in source order (call-trace variants). -/
def agentsT (summarizer : Str → Str) : List (Str → Str × List Str) :=
  [langchain_summaryT summarizer, llamaindex_summaryT summarizer,
   haystack_summaryT summarizer, hf_summaryT summarizer,
   autogen_summaryT summarizer, rasa_summaryT summarizer]

/-- `for agent in agents: st.info(agent(summary_input))` — the displayed
panels in order, and the concatenated pipeline-call trace. -/
def runAgentLoop (summarizer : Str → Str) (input : Str) :
    List Str × List Str :=
  let rs := (agentsT summarizer).map (fun f => f input)
  (rs.map (·.1), (rs.map (·.2)).flatten)

/-- Observable outcome of one full script run. -/
structure CycleOut where
  /-- fetch functions invoked, in call order. -/
  calls : List FetcherId
  /-- widgets displayed by the render section. -/
  widgets : List Widget
  /-- the `graphs` digest list. -/
  graphs : List Str
  /-- the uncaught exception that aborted the script, if any. -/
  err : Option PyErr
  /-- `summary_input`, when the script reached the summary section. -/
  summaryInput : Option Str
  /-- the six `st.info` panels, when the script reached them. -/
  panels : Option (List Str)
  /-- inputs passed to the summarization pipeline, in call order. -/
  sumCallInputs : List Str
deriving DecidableEq, Repr

/-- The render section of the script: the four guarded blocks, in source
order (Earthquakes, COVID-19, Air Quality, News). -/
def renderSection (env : Env) (city : Str) (layers : List Str) :
    St × Option PyErr :=
  andThen (andThen (andThen (quakeBlock env layers St.init)
    (covidBlock env layers)) (aqBlock env city layers)) (newsBlock env layers)

/-- One full run of the script body: the render section, then the
aggregator and the agent loop.  An uncaught exception anywhere aborts
everything after it. -/
def runCycle (summarizer : Str → Str) (env : Env) (city : Str)
    (layers : List Str) : CycleOut :=
  match renderSection env city layers with
  | (s, some e) => ⟨s.calls, s.widgets, s.graphs, some e, none, none, []⟩
  | (s, none) =>
    let input := aggregator s.graphs
    let pr := runAgentLoop summarizer input
    ⟨s.calls, s.widgets, s.graphs, none, some input, some pr.1, pr.2⟩

/-! Helper lemmas about the render blocks. -/

/-- The earthquake block records exactly its own fetch call, guarded by the
layer selection, whatever else happens inside it. -/
theorem quakeBlock_fst_calls (env : Env) (layers : List Str) (s : St) :
    ((quakeBlock env layers s).1).calls
      = s.calls ++ (if str "Earthquakes" ∈ layers
          then [FetcherId.earthquakes] else []) := by
  unfold quakeBlock
  by_cases hm : str "Earthquakes" ∈ layers
  · rcases hge : get_earthquakes env with e | eq <;> simp [hm, hge]
  · simp [hm]

/-- The COVID block records exactly its own fetch call, guarded by the layer
selection, whatever else happens inside it. -/
theorem covidBlock_fst_calls (env : Env) (layers : List Str) (s : St) :
    ((covidBlock env layers s).1).calls
      = s.calls ++ (if str "COVID-19" ∈ layers
          then [FetcherId.covid] else []) := by
  unfold covidBlock
  by_cases hm : str "COVID-19" ∈ layers
  · rcases hgc : get_covid env with e | covid
    · simp [hm, hgc]
    · rcases hcs : covid.cases with _ | cs
      · simp [hm, hgc, hcs]
      · rcases hds : covid.deaths with _ | ds <;> simp [hm, hgc, hcs, hds]
  · simp [hm]

/-- The air-quality block records exactly its own fetch call, guarded by the
layer selection, whatever else happens inside it. -/
theorem aqBlock_fst_calls (env : Env) (city : Str) (layers : List Str)
    (s : St) :
    ((aqBlock env city layers s).1).calls
      = s.calls ++ (if str "Air Quality" ∈ layers
          then [FetcherId.airQuality] else []) := by
  unfold aqBlock
  by_cases hm : str "Air Quality" ∈ layers
  · rcases hga : get_air_quality env city with e | aq
    · simp [hm, hga]
    · rcases hres : aq.results with _ | ⟨_ | ⟨st0, rest⟩⟩ <;>
        simp [hm, hga, hres]
  · simp [hm]

/-- The news block records exactly its own fetch call, guarded by the layer
selection, whatever else happens inside it. -/
theorem newsBlock_fst_calls (env : Env) (layers : List Str) (s : St) :
    ((newsBlock env layers s).1).calls
      = s.calls ++ (if str "News" ∈ layers then [FetcherId.news] else []) := by
  unfold newsBlock
  by_cases hm : str "News" ∈ layers
  · rcases hgn : get_news env with e | news
    · simp [hm, hgn]
    · rcases harts : news.articles with _ | arts <;> simp [hm, hgn, harts]
  · simp [hm]

/-- A state property holds after `andThen` when it held before and each block
preserves it. -/
theorem andThen_pres (P : St → Prop) (r : St × Option PyErr)
    (g : St → St × Option PyErr) (h1 : P r.1)
    (h2 : ∀ s, P s → P (g s).1) : P (andThen r g).1 := by
  rcases r with ⟨s, oe⟩
  cases oe
  · exact h2 s h1
  · exact h1

/-- Every fetch call recorded by the render section is one of the four
fetchers that have render blocks, and its layer was selected. -/
theorem renderSection_calls (env : Env) (city : Str) (layers : List Str) :
    ∀ f ∈ ((renderSection env city layers).1).calls,
      (f = FetcherId.earthquakes ∧ str "Earthquakes" ∈ layers) ∨
      (f = FetcherId.covid ∧ str "COVID-19" ∈ layers) ∨
      (f = FetcherId.airQuality ∧ str "Air Quality" ∈ layers) ∨
      (f = FetcherId.news ∧ str "News" ∈ layers) := by
  set Q : FetcherId → Prop := fun f =>
    (f = FetcherId.earthquakes ∧ str "Earthquakes" ∈ layers) ∨
    (f = FetcherId.covid ∧ str "COVID-19" ∈ layers) ∨
    (f = FetcherId.airQuality ∧ str "Air Quality" ∈ layers) ∨
    (f = FetcherId.news ∧ str "News" ∈ layers) with hQ
  have step : ∀ (s1 : St) (c : Str) (fid : FetcherId),
      (c ∈ layers → Q fid) →
      (∀ f ∈ s1.calls, Q f) →
      ∀ f ∈ s1.calls ++ (if c ∈ layers then [fid] else []), Q f := by
    intro s1 c fid hfid hs f hf
    rcases List.mem_append.1 hf with h1 | h2
    · exact hs f h1
    · by_cases hm : c ∈ layers
      · simp only [if_pos hm, List.mem_singleton] at h2
        subst h2; exact hfid hm
      · simp [if_neg hm] at h2
  unfold renderSection
  refine andThen_pres (fun s => ∀ f ∈ s.calls, Q f) _ _ ?_ ?_
  · refine andThen_pres (fun s => ∀ f ∈ s.calls, Q f) _ _ ?_ ?_
    · refine andThen_pres (fun s => ∀ f ∈ s.calls, Q f) _ _ ?_ ?_
      · show ∀ f ∈ ((quakeBlock env layers St.init).1).calls, Q f
        rw [quakeBlock_fst_calls]
        exact step St.init _ _ (fun hm => Or.inl ⟨rfl, hm⟩)
          (by intro f hf; simp [St.init] at hf)
      · intro s hs
        show ∀ f ∈ ((covidBlock env layers s).1).calls, Q f
        rw [covidBlock_fst_calls]
        exact step s _ _ (fun hm => Or.inr (Or.inl ⟨rfl, hm⟩)) hs
    · intro s hs
      show ∀ f ∈ ((aqBlock env city layers s).1).calls, Q f
      rw [aqBlock_fst_calls]
      exact step s _ _ (fun hm => Or.inr (Or.inr (Or.inl ⟨rfl, hm⟩))) hs
  · intro s hs
    show ∀ f ∈ ((newsBlock env layers s).1).calls, Q f
    rw [newsBlock_fst_calls]
    exact step s _ _ (fun hm => Or.inr (Or.inr (Or.inr ⟨rfl, hm⟩))) hs

/-- `runCycle` reports exactly the render section's fetch-call trace. -/
theorem runCycle_calls (summarizer : Str → Str) (env : Env) (city : Str)
    (layers : List Str) :
    (runCycle summarizer env city layers).calls
      = ((renderSection env city layers).1).calls := by
  unfold runCycle
  rcases renderSection env city layers with ⟨s, oe⟩
  cases oe <;> rfl

/-- Neither `get_weather` nor `get_disasters` is ever invoked by a render
cycle: the script has no render block for those two layers. -/
theorem calls_no_weather_disasters (summarizer : Str → Str) (env : Env)
    (city : Str) (layers : List Str) :
    ∀ f ∈ (runCycle summarizer env city layers).calls,
      f ≠ FetcherId.weather ∧ f ≠ FetcherId.disasters := by
  intro f hf
  rw [runCycle_calls] at hf
  rcases renderSection_calls env city layers f hf with
    ⟨h, _⟩ | ⟨h, _⟩ | ⟨h, _⟩ | ⟨h, _⟩ <;> subst h <;> exact ⟨by simp, by simp⟩

/-! Congruence helpers: the blocks read the layer selection only through
membership tests of their own guard string, and the environment only through
their own endpoint. -/

/-- The earthquake block depends on the selection only via its guard. -/
theorem quakeBlock_layers_congr (env : Env) (l1 l2 : List Str)
    (h : (str "Earthquakes" ∈ l1) ↔ (str "Earthquakes" ∈ l2)) :
    quakeBlock env l1 = quakeBlock env l2 := by
  funext s; unfold quakeBlock; exact if_congr h rfl rfl

/-- The COVID block depends on the selection only via its guard. -/
theorem covidBlock_layers_congr (env : Env) (l1 l2 : List Str)
    (h : (str "COVID-19" ∈ l1) ↔ (str "COVID-19" ∈ l2)) :
    covidBlock env l1 = covidBlock env l2 := by
  funext s; unfold covidBlock; exact if_congr h rfl rfl

/-- The air-quality block depends on the selection only via its guard. -/
theorem aqBlock_layers_congr (env : Env) (city : Str) (l1 l2 : List Str)
    (h : (str "Air Quality" ∈ l1) ↔ (str "Air Quality" ∈ l2)) :
    aqBlock env city l1 = aqBlock env city l2 := by
  funext s; unfold aqBlock; exact if_congr h rfl rfl

/-- The news block depends on the selection only via its guard. -/
theorem newsBlock_layers_congr (env : Env) (l1 l2 : List Str)
    (h : (str "News" ∈ l1) ↔ (str "News" ∈ l2)) :
    newsBlock env l1 = newsBlock env l2 := by
  funext s; unfold newsBlock; exact if_congr h rfl rfl

/-- A full cycle depends on the layer selection only through the four
membership tests of the guarded render blocks. -/
theorem runCycle_layers_congr (summarizer : Str → Str) (env : Env)
    (city : Str) (l1 l2 : List Str)
    (hq : (str "Earthquakes" ∈ l1) ↔ (str "Earthquakes" ∈ l2))
    (hc : (str "COVID-19" ∈ l1) ↔ (str "COVID-19" ∈ l2))
    (ha : (str "Air Quality" ∈ l1) ↔ (str "Air Quality" ∈ l2))
    (hn : (str "News" ∈ l1) ↔ (str "News" ∈ l2)) :
    runCycle summarizer env city l1 = runCycle summarizer env city l2 := by
  unfold runCycle renderSection
  rw [quakeBlock_layers_congr env l1 l2 hq, covidBlock_layers_congr env l1 l2 hc,
    aqBlock_layers_congr env city l1 l2 ha, newsBlock_layers_congr env l1 l2 hn]

/-- A full cycle reads the environment only through the four endpoints that
have render blocks; the geocoding, forecast, and disasters endpoints are
never consulted. -/
theorem runCycle_env_congr (summarizer : Str → Str) (env1 env2 : Env)
    (city : Str) (layers : List Str)
    (hq : env1.quakes = env2.quakes) (hc : env1.covid = env2.covid)
    (ha : env1.airQuality = env2.airQuality) (hn : env1.news = env2.news) :
    runCycle summarizer env1 city layers
      = runCycle summarizer env2 city layers := by
  have h1 : quakeBlock env1 = quakeBlock env2 := by
    funext layers s; unfold quakeBlock get_earthquakes; rw [hq]
  have h2 : covidBlock env1 = covidBlock env2 := by
    funext layers s; unfold covidBlock get_covid; rw [hc]
  have h3 : aqBlock env1 = aqBlock env2 := by
    funext city layers s; unfold aqBlock get_air_quality; rw [ha]
  have h4 : newsBlock env1 = newsBlock env2 := by
    funext layers s; unfold newsBlock get_news; rw [hn]
  unfold runCycle renderSection
  rw [h1, h2, h3, h4]

/-! Concrete environments used to evaluate the model on explicit inputs. -/

/-- A benign network: every endpoint answers with a well-formed payload. -/
def envOk : Env :=
  { geo := fun _ => .ok ⟨some [⟨28, 77⟩]⟩,
    forecast := fun _ _ => .ok ⟨0⟩,
    quakes := .ok ⟨[⟨str "X", 5, 0, 1, 2⟩]⟩,
    covid := .ok ⟨some 1000, some 10⟩,
    airQuality := fun _ => .ok ⟨some [⟨[⟨str "pm25", 3⟩]⟩]⟩,
    disasters := .ok ⟨0⟩,
    news := .ok ⟨some [⟨str "T"⟩]⟩ }

/-- Like `envOk`, but the disease endpoint's payload lacks the `cases` key. -/
def envNoCases : Env := { envOk with covid := .ok ⟨none, some 10⟩ }

/-- Like `envOk`, but the air-quality endpoint reports zero stations. -/
def envAQEmpty : Env := { envOk with airQuality := fun _ => .ok ⟨some []⟩ }

/-- Like `envOk`, but the geocoder answers with an empty `results` list. -/
def envGeoEmpty : Env := { envOk with geo := fun _ => .ok ⟨some []⟩ }

/-- Like `envOk`, but the geocoder's payload lacks the `results` key. -/
def envGeoNoKey : Env := { envOk with geo := fun _ => .ok ⟨none⟩ }

/-- Like `envOk`, but the disease endpoint has a transport failure. -/
def envCovidDown : Env := { envOk with covid := .error () }

/-! The claims. -/

/-- C1: each of the six summarizer entry points returns its own distinct
fixed label prefix followed by the result of the one shared underlying
summarization call, so on identical input all six outputs agree after
stripping each one's label prefix. -/
theorem C1_facade_label_plus_shared_core (summarizer : Str → Str)
    (text : Str) :
    agentLabels.Nodup ∧
    langchain_summary summarizer text
      = str "LangChain Agent: " ++ summarizer (text.take 1024) ∧
    llamaindex_summary summarizer text
      = str "LlamaIndex Agent: " ++ summarizer (text.take 1024) ∧
    haystack_summary summarizer text
      = str "Haystack Agent: " ++ summarizer (text.take 1024) ∧
    hf_summary summarizer text
      = str "HuggingFace Agent: " ++ summarizer (text.take 1024) ∧
    autogen_summary summarizer text
      = str "AutoGen Agent: " ++ summarizer (text.take 1024) ∧
    rasa_summary summarizer text
      = str "Rasa Agent: " ++ summarizer (text.take 1024) ∧
    (langchain_summary summarizer text).drop (str "LangChain Agent: ").length
        = summarizer (text.take 1024) ∧
    (llamaindex_summary summarizer text).drop (str "LlamaIndex Agent: ").length
        = summarizer (text.take 1024) ∧
    (haystack_summary summarizer text).drop (str "Haystack Agent: ").length
        = summarizer (text.take 1024) ∧
    (hf_summary summarizer text).drop (str "HuggingFace Agent: ").length
        = summarizer (text.take 1024) ∧
    (autogen_summary summarizer text).drop (str "AutoGen Agent: ").length
        = summarizer (text.take 1024) ∧
    (rasa_summary summarizer text).drop (str "Rasa Agent: ").length
        = summarizer (text.take 1024) := by
  refine ⟨by decide, rfl, rfl, rfl, rfl, rfl, rfl, ?_, ?_, ?_, ?_, ?_, ?_⟩ <;>
    exact List.drop_left _ _

/-- C6: the input each facade entry point passes to the underlying
summarization call is exactly the first `min(len(text), 1024)` characters of
the digest text — a character-boundary prefix, with the remainder of the
text untouched after it. -/
theorem C6_truncated_prefix_submitted (summarizer : Str → Str) (text : Str) :
    (runAgentLoop summarizer text).2 = List.replicate 6 (text.take 1024) ∧
    (text.take 1024).length = min 1024 text.length ∧
    text.take 1024 ++ text.drop 1024 = text := by
  refine ⟨?_, List.length_take 1024 text, List.take_append_drop 1024 text⟩
  simp [runAgentLoop, agentsT, langchain_summaryT, llamaindex_summaryT,
    haystack_summaryT, hf_summaryT, autogen_summaryT, rasa_summaryT,
    List.replicate]

/-- C7: with zero digest entries the aggregator produces the fixed
placeholder `"No data selected."` (never the empty string); with a non-empty
entry list it produces the single-space join. -/
theorem C7_aggregator_placeholder :
    aggregator [] = str "No data selected." ∧
    aggregator [] ≠ ([] : Str) ∧
    ∀ gs : List Str, gs ≠ [] → aggregator gs = joinSpace gs := by
  refine ⟨rfl, by decide, ?_⟩
  intro gs hgs
  simp [aggregator, hgs]

/-- Witness for C7: the aggregator evaluated on a concrete one-entry list
and on the empty list. -/
theorem C7_aggregator_placeholder_witness :
    aggregator [str "Earthquake activity shows seismic hotspots."]
      = joinSpace [str "Earthquake activity shows seismic hotspots."] ∧
    aggregator [] = str "No data selected." :=
  ⟨C7_aggregator_placeholder.2.2 _ (by decide), by decide⟩

/-- C5: a render cycle never invokes `get_weather` or `get_disasters` and
never consults their endpoints, even when those layers are selected: two
runs whose selections differ only in the presence of `"Weather"` and/or
`"Disasters"` produce identical output (widgets, digest blob, and all six
summary panels), and no cycle depends on the geocoding, forecast, or
disasters endpoints. -/
theorem C5_weather_disasters_inert (summarizer : Str → Str) (env : Env)
    (city : Str) (l1 l2 : List Str)
    (h : ∀ x : Str, x ≠ str "Weather" → x ≠ str "Disasters" →
      (x ∈ l1 ↔ x ∈ l2)) :
    runCycle summarizer env city l1 = runCycle summarizer env city l2 ∧
    (∀ f ∈ (runCycle summarizer env city l1).calls,
      f ≠ FetcherId.weather ∧ f ≠ FetcherId.disasters) ∧
    (∀ (g : Str → Except Unit GeoResp)
        (fc : Int → Int → Except Unit WeatherJson)
        (d : Except Unit DisResp),
      runCycle summarizer { env with geo := g, forecast := fc, disasters := d }
          city l1
        = runCycle summarizer env city l1) := by
  refine ⟨?_, calls_no_weather_disasters summarizer env city l1, ?_⟩
  · exact runCycle_layers_congr summarizer env city l1 l2
      (h _ (by decide) (by decide)) (h _ (by decide) (by decide))
      (h _ (by decide) (by decide)) (h _ (by decide) (by decide))
  · intro g fc d
    exact runCycle_env_congr summarizer _ env city l1 rfl rfl rfl rfl

/-- Witness for C5: selecting `{Weather, Earthquakes}` and
`{Earthquakes, Disasters}` yields the same cycle output on a concrete
benign environment. -/
theorem C5_weather_disasters_inert_witness :
    runCycle (fun t => t) envOk (str "New Delhi")
        [str "Weather", str "Earthquakes"]
      = runCycle (fun t => t) envOk (str "New Delhi")
        [str "Earthquakes", str "Disasters"] :=
  (C5_weather_disasters_inert (fun t => t) envOk (str "New Delhi")
    [str "Weather", str "Earthquakes"] [str "Earthquakes", str "Disasters"]
    (by
      intro x hw hd
      simp only [List.mem_cons, List.not_mem_nil, or_false]
      constructor
      · rintro (h | h)
        · exact absurd h hw
        · exact Or.inl h
      · rintro (h | h)
        · exact Or.inr h
        · exact absurd h hd)).1

/-- C8: layer selections that are equal as sets give identical cycles — in
particular an identical digest blob — because the blocks run in the fixed
source order and read the selection only through membership. -/
theorem C8_selection_order_irrelevant (summarizer : Str → Str) (env : Env)
    (city : Str) (l1 l2 : List Str) (h : ∀ x : Str, x ∈ l1 ↔ x ∈ l2) :
    runCycle summarizer env city l1 = runCycle summarizer env city l2 ∧
    (runCycle summarizer env city l1).graphs
      = (runCycle summarizer env city l2).graphs ∧
    (runCycle summarizer env city l1).summaryInput
      = (runCycle summarizer env city l2).summaryInput := by
  have he : runCycle summarizer env city l1 = runCycle summarizer env city l2 :=
    runCycle_layers_congr summarizer env city l1 l2 (h _) (h _) (h _) (h _)
  exact ⟨he, by rw [he], by rw [he]⟩

/-- Witness for C8: the same two layers selected in the two possible orders
give the same cycle output on a concrete benign environment. -/
theorem C8_selection_order_irrelevant_witness :
    runCycle (fun t => t) envOk (str "New Delhi")
        [str "COVID-19", str "Earthquakes"]
      = runCycle (fun t => t) envOk (str "New Delhi")
        [str "Earthquakes", str "COVID-19"] :=
  (C8_selection_order_irrelevant (fun t => t) envOk (str "New Delhi")
    [str "COVID-19", str "Earthquakes"] [str "Earthquakes", str "COVID-19"]
    (by
      intro x
      simp only [List.mem_cons, List.not_mem_nil, or_false]
      exact or_comm)).1

/-- C9: a render cycle only invokes fetchers whose layer identifier is in
the current selection; no fetcher of an unselected layer is ever called. -/
theorem C9_only_selected_fetchers (summarizer : Str → Str) (env : Env)
    (city : Str) (layers : List Str) (f : FetcherId)
    (hf : f ∈ (runCycle summarizer env city layers).calls) :
    layerName f ∈ layers := by
  rw [runCycle_calls] at hf
  rcases renderSection_calls env city layers f hf with
    ⟨h, hm⟩ | ⟨h, hm⟩ | ⟨h, hm⟩ | ⟨h, hm⟩ <;> subst h <;> exact hm

/-- Witness for C9: with only `"Earthquakes"` selected, the earthquake
fetcher is called and its layer name is in the selection. -/
theorem C9_only_selected_fetchers_witness :
    FetcherId.earthquakes
        ∈ (runCycle (fun t => t) envOk (str "New Delhi")
            [str "Earthquakes"]).calls ∧
    layerName FetcherId.earthquakes ∈ [str "Earthquakes"] :=
  ⟨by decide,
   C9_only_selected_fetchers (fun t => t) envOk (str "New Delhi")
     [str "Earthquakes"] FetcherId.earthquakes (by decide)⟩

/-- C10: whenever the script reaches the summary section (no uncaught
exception), the summarization pipeline is invoked exactly six times — once
per agent, in the fixed order LangChain, LlamaIndex, Haystack, HuggingFace,
AutoGen, Rasa — each result shown as its own panel; with an empty digest the
input is the placeholder `"No data selected."`. -/
theorem C10_six_pipeline_calls (summarizer : Str → Str) (env : Env)
    (city : Str) (layers : List Str)
    (h : (runCycle summarizer env city layers).err = none) :
    (runCycle summarizer env city layers).sumCallInputs.length = 6 ∧
    ∃ input,
      (runCycle summarizer env city layers).summaryInput = some input ∧
      (runCycle summarizer env city layers).sumCallInputs
        = List.replicate 6 (input.take 1024) ∧
      (runCycle summarizer env city layers).panels = some
        [str "LangChain Agent: " ++ summarizer (input.take 1024),
         str "LlamaIndex Agent: " ++ summarizer (input.take 1024),
         str "Haystack Agent: " ++ summarizer (input.take 1024),
         str "HuggingFace Agent: " ++ summarizer (input.take 1024),
         str "AutoGen Agent: " ++ summarizer (input.take 1024),
         str "Rasa Agent: " ++ summarizer (input.take 1024)] ∧
      ((runCycle summarizer env city layers).graphs = []
        → input = str "No data selected.") := by
  rcases hr : renderSection env city layers with ⟨s, oe⟩
  cases oe with
  | some e => simp [runCycle, hr] at h
  | none =>
    refine ⟨?_, aggregator s.graphs, ?_, ?_, ?_, ?_⟩ <;>
      simp [runCycle, hr, runAgentLoop, agentsT, langchain_summaryT,
        llamaindex_summaryT, haystack_summaryT, hf_summaryT, autogen_summaryT,
        rasa_summaryT, List.replicate]
    intro h0
    simp [aggregator, h0]

/-- Witness for C10: a cycle with the empty selection on a concrete benign
environment reaches the summary section and makes its six pipeline calls on
the placeholder. -/
theorem C10_six_pipeline_calls_witness :
    (runCycle (fun t => t) envOk (str "New Delhi") []).sumCallInputs.length
        = 6 ∧
    ∃ input,
      (runCycle (fun t => t) envOk (str "New Delhi") []).summaryInput
        = some input ∧
      (runCycle (fun t => t) envOk (str "New Delhi") []).sumCallInputs
        = List.replicate 6 (input.take 1024) ∧
      (runCycle (fun t => t) envOk (str "New Delhi") []).panels = some
        [str "LangChain Agent: " ++ (fun t : Str => t) (input.take 1024),
         str "LlamaIndex Agent: " ++ (fun t : Str => t) (input.take 1024),
         str "Haystack Agent: " ++ (fun t : Str => t) (input.take 1024),
         str "HuggingFace Agent: " ++ (fun t : Str => t) (input.take 1024),
         str "AutoGen Agent: " ++ (fun t : Str => t) (input.take 1024),
         str "Rasa Agent: " ++ (fun t : Str => t) (input.take 1024)] ∧
      ((runCycle (fun t => t) envOk (str "New Delhi") []).graphs = []
        → input = str "No data selected.") :=
  C10_six_pipeline_calls (fun t => t) envOk (str "New Delhi") [] (by decide)

/-- C2 counterexample: with COVID-19 and News both selected, a disease
payload that lacks the `cases` key is not converted to a per-layer failure:
the cycle aborts with an uncaught `KeyError`, the healthy News layer is
never fetched, and no digest or panels are produced — refuting the claim
that only the failing layer is skipped while every other enabled layer
still executes. -/
theorem C2_counterexample :
    envNoCases.news = .ok ⟨some [⟨str "T"⟩]⟩ ∧
    (runCycle (fun t => t) envNoCases (str "New Delhi")
        [str "COVID-19", str "News"]).err
      = some (PyErr.keyErr (str "cases")) ∧
    FetcherId.news ∉ (runCycle (fun t => t) envNoCases (str "New Delhi")
        [str "COVID-19", str "News"]).calls ∧
    (runCycle (fun t => t) envNoCases (str "New Delhi")
        [str "COVID-19", str "News"]).panels = none ∧
    (runCycle (fun t => t) envNoCases (str "New Delhi")
        [str "COVID-19", str "News"]).graphs = [] := by
  decide

/-- C2 as amended: fetch errors are not caught at the Fetcher boundary.
`get_covid` returns the parsed payload unchanged on transport success and
propagates the transport exception otherwise; a missing expected field then
raises an uncaught `KeyError` in the render block, aborting the whole cycle:
later enabled layers are not fetched and no summaries are produced. -/
theorem C2_amended_uncaught_abort (summarizer : Str → Str) (env env2 : Env)
    (city : Str) (layers : List Str) (resp : CovidResp)
    (hsel : str "COVID-19" ∈ layers) (henv : env.covid = .ok resp)
    (hcases : resp.cases = none) (henv2 : env2.covid = .error ()) :
    get_covid env = .ok resp ∧
    get_covid env2 = .error PyErr.netErr ∧
    (runCycle summarizer env city layers).err ≠ none ∧
    (runCycle summarizer env city layers).panels = none ∧
    (runCycle summarizer env city layers).summaryInput = none ∧
    FetcherId.airQuality ∉ (runCycle summarizer env city layers).calls ∧
    FetcherId.news ∉ (runCycle summarizer env city layers).calls := by
  have hgc : get_covid env = .ok resp := by unfold get_covid; rw [henv]
  have hgc2 : get_covid env2 = .error .netErr := by
    unfold get_covid; rw [henv2]
  rcases hq : quakeBlock env layers St.init with ⟨s0, oe0⟩
  have hs0 : s0.calls
      = [] ++ (if str "Earthquakes" ∈ layers
          then [FetcherId.earthquakes] else []) := by
    have h := quakeBlock_fst_calls env layers St.init
    rw [hq] at h
    simpa [St.init] using h
  have hs0sub : ∀ f ∈ s0.calls, f = FetcherId.earthquakes := by
    intro f hf
    rw [hs0] at hf
    by_cases hm : str "Earthquakes" ∈ layers
    · simpa [hm] using hf
    · simp [hm] at hf
  cases oe0 with
  | some e0 =>
    have hr : renderSection env city layers = (s0, some e0) := by
      simp [renderSection, andThen, hq]
    refine ⟨hgc, hgc2, by simp [runCycle, hr], by simp [runCycle, hr],
      by simp [runCycle, hr], ?_, ?_⟩
    · intro hf
      rw [runCycle_calls, hr] at hf
      have := hs0sub _ hf
      simp at this
    · intro hf
      rw [runCycle_calls, hr] at hf
      have := hs0sub _ hf
      simp at this
  | none =>
    rcases hc : covidBlock env layers s0 with ⟨s1, oe1⟩
    have hoe1 : oe1 = some (.keyErr (str "cases")) := by
      have h : (covidBlock env layers s0).2 = some (.keyErr (str "cases")) := by
        simp [covidBlock, hsel, hgc, hcases]
      rw [hc] at h
      exact h
    subst hoe1
    have hs1 : s1.calls = s0.calls ++ [FetcherId.covid] := by
      have h := covidBlock_fst_calls env layers s0
      rw [hc] at h
      simpa [hsel] using h
    have hr : renderSection env city layers
        = (s1, some (.keyErr (str "cases"))) := by
      simp [renderSection, andThen, hq, hc]
    refine ⟨hgc, hgc2, by simp [runCycle, hr], by simp [runCycle, hr],
      by simp [runCycle, hr], ?_, ?_⟩
    · intro hf
      rw [runCycle_calls, hr] at hf
      simp only [hs1] at hf
      rcases List.mem_append.1 hf with h1 | h1
      · have := hs0sub _ h1
        simp at this
      · simp at h1
    · intro hf
      rw [runCycle_calls, hr] at hf
      simp only [hs1] at hf
      rcases List.mem_append.1 hf with h1 | h1
      · have := hs0sub _ h1
        simp at this
      · simp at h1

/-- Witness for the amended C2, at a concrete environment whose disease
payload lacks `cases` (and a second one whose disease endpoint is down). -/
theorem C2_amended_uncaught_abort_witness :
    get_covid envNoCases = .ok ⟨none, some 10⟩ ∧
    get_covid envCovidDown = .error PyErr.netErr ∧
    (runCycle (fun t => t) envNoCases (str "New Delhi")
        [str "COVID-19", str "News"]).err ≠ none ∧
    (runCycle (fun t => t) envNoCases (str "New Delhi")
        [str "COVID-19", str "News"]).panels = none ∧
    (runCycle (fun t => t) envNoCases (str "New Delhi")
        [str "COVID-19", str "News"]).summaryInput = none ∧
    FetcherId.airQuality ∉ (runCycle (fun t => t) envNoCases (str "New Delhi")
        [str "COVID-19", str "News"]).calls ∧
    FetcherId.news ∉ (runCycle (fun t => t) envNoCases (str "New Delhi")
        [str "COVID-19", str "News"]).calls :=
  C2_amended_uncaught_abort (fun t => t) envNoCases envCovidDown
    (str "New Delhi") [str "COVID-19", str "News"] ⟨none, some 10⟩
    (by decide) rfl rfl rfl

/-- C3 counterexample: on an air-quality response with an empty `results`
list, `get_air_quality` returns that payload as a normal success value — a
Success carrying an empty payload — not any failure indication, refuting
the claim that the Fetcher itself returns Failure. -/
theorem C3_counterexample :
    get_air_quality envAQEmpty (str "New Delhi") = .ok ⟨some []⟩ ∧
    AQResp.results ⟨some []⟩ = some [] := by
  decide

/-- C3 as amended: `get_air_quality` returns the parsed upstream payload
unchanged — on zero stations it is a Success carrying the empty `results`
list — and it is the render block's inner guard that then skips the layer:
no widget, no digest entry, no exception. -/
theorem C3_amended_guard_skips (env : Env) (city : Str) (layers : List Str)
    (resp : AQResp) (s : St) (hok : env.airQuality city = .ok resp)
    (hres : resp.results = some []) :
    get_air_quality env city = .ok resp ∧
    aqBlock env city layers s
      = ({ s with calls := s.calls ++ (if str "Air Quality" ∈ layers
            then [FetcherId.airQuality] else []) }, none) := by
  have hga : get_air_quality env city = .ok resp := by
    unfold get_air_quality; rw [hok]
  refine ⟨hga, ?_⟩
  by_cases hm : str "Air Quality" ∈ layers <;> simp [aqBlock, hm, hga, hres]

/-- Witness for the amended C3, at a concrete zero-station environment: the
block records its fetch call but leaves widgets and digest untouched. -/
theorem C3_amended_guard_skips_witness :
    get_air_quality envAQEmpty (str "New Delhi") = .ok ⟨some []⟩ ∧
    aqBlock envAQEmpty (str "New Delhi") [str "Air Quality"] St.init
      = ({ St.init with calls := St.init.calls
            ++ (if str "Air Quality" ∈ [str "Air Quality"]
              then [FetcherId.airQuality] else []) }, none) :=
  C3_amended_guard_skips envAQEmpty (str "New Delhi") [str "Air Quality"]
    ⟨some []⟩ St.init rfl rfl

/-- C4 counterexample: on a geocoding response that carries a `results` key
holding the empty list — a response with zero results — `get_weather` does
not return the `None` failure value: `g["results"][0]` raises an uncaught
`IndexError`. -/
theorem C4_counterexample :
    GeoResp.results ⟨some []⟩ = some [] ∧
    get_weather envGeoEmpty (str "New Delhi") = .error PyErr.indexErr ∧
    get_weather envGeoEmpty (str "New Delhi") ≠ .ok none := by
  decide

/-- C4 as amended: only a geocoding payload lacking the `results` key makes
`get_weather` return the `None` failure (without the chained forecast
request); a present-but-empty `results` list instead raises an uncaught
`IndexError` (also without the forecast request).  Independently, no render
cycle ever invokes `get_weather`, so the Weather layer never produces a
widget or a digest entry. -/
theorem C4_amended_weather_fetch (env : Env) (city : Str) (g : GeoResp)
    (hg : env.geo city = .ok g) :
    (g.results = none → get_weather env city = .ok none) ∧
    (g.results = some [] → get_weather env city = .error PyErr.indexErr) ∧
    ((g.results = none ∨ g.results = some []) →
      ∀ fc : Int → Int → Except Unit WeatherJson,
        get_weather { env with forecast := fc } city
          = get_weather env city) ∧
    (∀ (summarizer : Str → Str) (layers : List Str),
      FetcherId.weather ∉ (runCycle summarizer env city layers).calls) := by
  refine ⟨?_, ?_, ?_, ?_⟩
  · intro h
    simp [get_weather, hg, h]
  · intro h
    simp [get_weather, hg, h]
  · intro h fc
    rcases h with h | h <;> simp [get_weather, hg, h]
  · intro summarizer layers hf
    exact (calls_no_weather_disasters summarizer env city layers
      FetcherId.weather hf).1 rfl

/-- Witness for the amended C4, at a concrete environment whose geocoder
payload lacks the `results` key. -/
theorem C4_amended_weather_fetch_witness :
    ((⟨none⟩ : GeoResp).results = none
      → get_weather envGeoNoKey (str "New Delhi") = .ok none) ∧
    ((⟨none⟩ : GeoResp).results = some []
      → get_weather envGeoNoKey (str "New Delhi") = .error PyErr.indexErr) ∧
    (((⟨none⟩ : GeoResp).results = none
        ∨ (⟨none⟩ : GeoResp).results = some []) →
      ∀ fc : Int → Int → Except Unit WeatherJson,
        get_weather { envGeoNoKey with forecast := fc } (str "New Delhi")
          = get_weather envGeoNoKey (str "New Delhi")) ∧
    (∀ (summarizer : Str → Str) (layers : List Str),
      FetcherId.weather
        ∉ (runCycle summarizer envGeoNoKey (str "New Delhi") layers).calls) :=
  C4_amended_weather_fetch envGeoNoKey (str "New Delhi") ⟨none⟩ rfl

end PlanetTwin
